import Mathlib

/-!
Verification development for the invoice-processing pipeline in `src/main.py`
(class `InvoiceHelper`).  Python strings are modelled as Lean `String`s (with
character-list implementations of the string primitives the code uses, since
those are what Python's `str` methods compute), Python `float` arithmetic on
the invoice's decimal amounts is modelled exactly over `ℚ`, and Python dicts
are modelled as association lists.  `re.findall` is factored out: the
extraction function takes, for every license type, the list of captured
groups the two regex families produced, which is the only part of the regex
machinery the downstream code consumes.
-/

/-! ## String primitives (character-list models of the Python `str` methods) -/

/-- Lexicographic comparison of character lists by code point, the ordering
Python uses for `str` (pandas `groupby` sorts its keys with it). -/
def listCharLe : List Char → List Char → Bool
  | [], _ => true
  | _ :: _, [] => false
  | a :: as, b :: bs => if a = b then listCharLe as bs else decide (a < b)

/-- Python string `<=`, used for the sorted region-group keys. -/
def strLe (s t : String) : Bool := listCharLe s.data t.data

/-- Does the character list start with the given pattern?  Models Python
`str.startswith` (restricted to the needle actually used, via `listStartsWith`
on the needle's characters). -/
def listStartsWith : List Char → List Char → Bool
  | [], _ => true
  | _ :: _, [] => false
  | p :: ps, c :: cs => p == c && listStartsWith ps cs

/-- Python `'P.' in x`-style containment test: does `needle` occur as a
contiguous substring of `hay`?  Models Python's `in` operator on `str`. -/
def listContainsSub (needle : List Char) : List Char → Bool
  | [] => needle.isEmpty
  | c :: rest => listStartsWith needle (c :: rest) || listContainsSub needle rest

/-- Python `needle in hay` on strings. -/
def strContains (hay needle : String) : Bool := listContainsSub needle.data hay.data

/-- Python `str.lower`, character by character. -/
def strLower (s : String) : String := ⟨s.data.map Char.toLower⟩

/-- Python `x.replace('P.', '')`: removes every (left-to-right,
non-overlapping) occurrence of the two-character needle `P.`. -/
def removePdot : List Char → List Char
  | 'P' :: '.' :: rest => removePdot rest
  | c :: rest => c :: removePdot rest
  | [] => []

/-- Python `x.startswith('P.')`. -/
def startsWithPdot (s : String) : Bool :=
  match s.data with
  | 'P' :: '.' :: _ => true
  | _ => false

/-- Line 68: `search_id = project_id.replace('P.', '') if project_id.startswith('P.') else project_id`.
Note that Python's `replace` removes every occurrence of `'P.'`, not only the
leading one. -/
def stripP (project_id : String) : String :=
  if startsWithPdot project_id then ⟨removePdot project_id.data⟩ else project_id

/-! ## The numeric normalization (Python `float(x.replace(' ', '').replace(',', '.'))`) -/

/-- Value of a digit string read in base 10 (the mantissa digits of a Python
float literal). -/
def digitsVal (l : List Char) : ℕ := l.foldl (fun a c => 10 * a + (c.toNat - 48)) 0

/-- Is the list a nonempty sequence of decimal digits? -/
def isDigits (l : List Char) : Bool := !l.isEmpty && l.all (·.isDigit)

/-- Splits a list at the first character satisfying `p` (that character starts
the second component).  Parsing helper for the float grammar. -/
def breakAt (p : Char → Bool) : List Char → List Char × List Char
  | [] => ([], [])
  | c :: rest => if p c then ([], c :: rest) else
      let (a, b) := breakAt p rest
      (c :: a, b)

/-- Consumes an optional leading sign: `(isNegative, rest)`. -/
def splitSign (l : List Char) : Bool × List Char :=
  match l with
  | [] => (false, l)
  | c :: r => if c = '-' then (true, r) else if c = '+' then (false, r) else (false, l)

/-- Models the decimal forms accepted by Python's `float` builtin: an optional
sign, an integer and/or fractional digit part containing at least one digit,
and an optional decimal exponent introduced by `e` or `E`.  (The builtin's
additional `inf`/`nan` spellings, embedded underscores and surrounding
whitespace do not occur in this pipeline and are not modelled.)  Returns
`none` exactly when Python raises `ValueError`. -/
def pyFloat (l : List Char) : Option ℚ :=
  let signRest := splitSign l
  let neg := signRest.1
  let mantExp := breakAt (fun c => c = 'e' || c = 'E') signRest.2
  let mval : Option ℚ :=
    match breakAt (fun c => c = '.') mantExp.1 with
    | (ip, []) => if isDigits ip then some ((digitsVal ip : ℚ)) else none
    | (ip, _ :: fp) =>
      if ip.all (·.isDigit) && fp.all (·.isDigit) && !(ip.isEmpty && fp.isEmpty) then
        some ((digitsVal ip : ℚ) + (digitsVal fp : ℚ) / 10 ^ fp.length)
      else none
  let eval : Option (Bool × ℕ) :=
    match mantExp.2 with
    | [] => some (false, 0)
    | _ :: er =>
      let esignRest := splitSign er
      if isDigits esignRest.2 then some (esignRest.1, digitsVal esignRest.2) else none
  match mval, eval with
  | some m, some (eneg, e) =>
    let v : ℚ := if eneg then m / 10 ^ e else m * 10 ^ e
    some (if neg then -v else v)
  | _, _ => none

/-- Lines 180-182 / 204: `float(x.replace(' ', '').replace(',', '.'))`.
Python `replace` with a single-character needle is character-wise filtering
resp. mapping. -/
def parse_number (s : String) : Option ℚ :=
  pyFloat ((s.data.filter (fun c => c != ' ')).map (fun c => if c = ',' then '.' else c))

/-! ## Rounding (Python `round(x, 2)`) -/

/-- Bankers' rounding of a rational to the nearest integer, ties to even —
the rounding Python's `round` builtin performs. -/
def roundHalfEven (q : ℚ) : ℤ :=
  let f := ⌊q⌋
  let r := q - f
  if r < 1/2 then f
  else if 1/2 < r then f + 1
  else if f % 2 = 0 then f else f + 1

/-- Python `round(x, 2)`: round to two decimal places. -/
def round2 (q : ℚ) : ℚ := (roundHalfEven (q * 100) : ℚ) / 100

/-! ## Data model -/

/-- The eight recognized license types, in the key order of the
`new_format_patterns` dict (lines 134-143). -/
inductive LicenseType
  | power_bi
  | power_automate_rpa
  | power_automate_plan
  | teams_rooms
  | teams_eea
  | copilot
  | ms365_eea
  | power_automate_prem
deriving DecidableEq

/-- The aggregate stored per license type (lines 191-195). -/
structure LicenseLineItem where
  quantity : ℚ
  unit_price : ℚ
  total : ℚ
deriving DecidableEq

/-- One entry of the `license_info` dict: either a license-type aggregate or
the `'invoice_total'` key (whose stored value may itself be `None`). -/
inductive DEntry
  | lic : LicenseType → LicenseLineItem → DEntry
  | invoiceTotal : Option ℚ → DEntry
deriving DecidableEq

/-- The `license_info` dict, as an insertion-ordered association list. -/
abbrev LicenseDict := List DEntry

/-- Value of entry `e` under license-type key `t`, if any. -/
def DEntry.licOf (t : LicenseType) : DEntry → Option LicenseLineItem
  | .lic t' item => if t' == t then some item else none
  | .invoiceTotal _ => none

/-- Python `license_info['t']` / `'t' in license_info` for a license-type key. -/
def getLic (d : LicenseDict) (t : LicenseType) : Option LicenseLineItem :=
  d.findSome? (DEntry.licOf t)

/-- Python `license_info.get('invoice_total')`: `none` when the key is absent
or stores `None`. -/
def getInvoiceTotal (d : LicenseDict) : Option ℚ :=
  (d.findSome? fun e => match e with | .invoiceTotal v => some v | _ => none).join

/-- Python `license_info.get(t, {}).get('total', 0)` (and the guarded
`license_info[t]['total']` accesses): the stored total, or `0` when the type
is absent. -/
def total_or_zero (o : Option LicenseLineItem) : ℚ :=
  match o with
  | some i => i.total
  | none => 0

/-- One roster row of the `Power BI Users` sheet (columns `Namn`, `RG`,
`Kostnadsställe`, `Specialhantering`; the last is `none` for a blank cell). -/
structure User where
  Namn : String
  RG : String
  Kostnadsstalle : String
  Specialhantering : Option String
deriving DecidableEq

/-- One row of the `Project Settings` sheet after the load-time normalization
of `ProjektID` (line 50-52 already strips the `P.` prefix in the table). -/
structure ProjectRow where
  ProjektID : String
  Aktivitet : String
  ProjKat : String
  Mottagare : String
deriving DecidableEq

/-- The record `get_project_settings` returns (keys `Kon/Proj`, `Aktivitet`,
`ProjKat`, `Mottagare`). -/
structure ProjectSetting where
  KonProj : String
  Aktivitet : String
  ProjKat : String
  Mottagare : String
deriving DecidableEq

/-- Lines 65-107: `get_project_settings`.  Looks the normalized id up in the
settings table (first matching row), falls back to one of three built-in
default records, and otherwise to a generic `Okänd mottagare` record. -/
def get_project_settings (table : List ProjectRow) (project_id : String) : ProjectSetting :=
  match table.find? (fun r => r.ProjektID == stripP project_id) with
  | some p => { KonProj := "P." ++ p.ProjektID, Aktivitet := p.Aktivitet,
                ProjKat := p.ProjKat, Mottagare := p.Mottagare }
  | none =>
    if stripP project_id == "20257601" then
      { KonProj := "P.20257601", Aktivitet := "050", ProjKat := "5420",
        Mottagare := "Digital Utveckling och integration" }
    else if stripP project_id == "20257407" then
      { KonProj := "P.20257407", Aktivitet := "738", ProjKat := "5420",
        Mottagare := "Digital Arbetsplats" }
    else if stripP project_id == "20257403" then
      { KonProj := "P.20257403", Aktivitet := "738", ProjKat := "5420",
        Mottagare := "Digital Arbetsplats" }
    else
      { KonProj := "P." ++ stripP project_id, Aktivitet := "738", ProjKat := "5420",
        Mottagare := "Okänd mottagare" }

/-! ## Line-item extraction (`parse_license_info`, lines 127-224)

The regex evaluation itself is factored out: `new_matches t` and
`old_matches t` stand for `re.findall(new_format_patterns[t], text, ...)`
resp. `re.findall(old_format_patterns[t], text, ...)`, each captured match
being the triple of strings `(quantity, unit_price, total)`; `total_token`
stands for the group captured by the `Summa Avtal` search (line 201), `none`
when that search fails. -/

/-- A captured `(quantity, unit_price, total)` group triple. -/
abbrev MatchTriple := String × String × String

/-- The float conversions of lines 180-182 applied to one captured triple;
`none` when any of the three raises `ValueError`. -/
def parseTriple (m : MatchTriple) : Option (ℚ × ℚ × ℚ) :=
  match parse_number m.1, parse_number m.2.1, parse_number m.2.2 with
  | some q, some p, some t => some (q, p, t)
  | _, _, _ => none

/-- The conversion loop of lines 177-186 applied to all captured triples in
order: the parsed values, or `none` as soon as one conversion raises. -/
def parseAll : List MatchTriple → Option (List (ℚ × ℚ × ℚ))
  | [] => some []
  | m :: ms =>
    match parseTriple m, parseAll ms with
    | some v, some vs => some (v :: vs)
    | _, _ => none

/-- Lines 172-195: fold all matched values of one license type into one
aggregate: summed quantity, summed total, and the arithmetic mean of the unit
prices (`0` when there is none). -/
def aggregate_matches (vals : List (ℚ × ℚ × ℚ)) : LicenseLineItem :=
  let total_quantity := vals.foldl (fun acc v => acc + v.1) 0
  let total_amount := vals.foldl (fun acc v => acc + v.2.2) 0
  let unit_prices := vals.map (fun v => v.2.1)
  let avg_unit_price : ℚ :=
    if unit_prices.isEmpty then 0 else unit_prices.foldl (· + ·) 0 / unit_prices.length
  { quantity := total_quantity, unit_price := avg_unit_price, total := total_amount }

/-- Errors `parse_license_info` can raise: `ValueError` from a failed float
conversion (the spec's `MalformedNumberError`), and the intended
`ValueError("Ingen licensinformation hittades i texten")` of line 212 (the
spec's `NoLicenseDataError`). -/
inductive ParseErr
  | malformedNumber
  | noLicenseData
deriving DecidableEq

/-- The for-loop of lines 159-198 over the license types in `ts`: collects
one `lic` entry per type with a nonempty combined match list, in order;
`none` if some captured number fails to convert. -/
def collectEntries (new_matches old_matches : LicenseType → List MatchTriple) :
    List LicenseType → Option LicenseDict
  | [] => some []
  | t :: ts =>
    let all_matches := new_matches t ++ old_matches t
    if all_matches.isEmpty then collectEntries new_matches old_matches ts
    else
      match parseAll all_matches with
      | none => none
      | some vals =>
        (collectEntries new_matches old_matches ts).map
          (fun rest => .lic t (aggregate_matches vals) :: rest)

/-- The dict key order of `new_format_patterns` (lines 135-142), which the
loop of line 159 iterates over. -/
def typeOrder : List LicenseType :=
  [.power_bi, .power_automate_rpa, .power_automate_plan, .teams_rooms,
   .teams_eea, .copilot, .ms365_eea, .power_automate_prem]

/-- Lines 127-224: `parse_license_info`.  Aggregates the matches per type,
then stores the (possibly absent) invoice total under `'invoice_total'`
(line 208), and only then checks `if not license_info` (line 211) — so the
dict handed to that check always already carries the `'invoice_total'` key. -/
def parse_license_info (new_matches old_matches : LicenseType → List MatchTriple)
    (total_token : Option String) : Except ParseErr LicenseDict :=
  match collectEntries new_matches old_matches typeOrder with
  | none => .error .malformedNumber
  | some entries =>
    let invoice_total? : Except ParseErr (Option ℚ) :=
      match total_token with
      | none => .ok none
      | some s =>
        match parse_number s with
        | none => .error .malformedNumber
        | some v => .ok (some v)
    match invoice_total? with
    | .error e => .error e
    | .ok invoice_total =>
      let license_info := entries ++ [.invoiceTotal invoice_total]
      if license_info.isEmpty then .error .noLicenseData else .ok license_info

/-! ## Allocation (`generate_accounting_rows`, lines 226-340) -/

/-- One accounting row dict (lines 243-253 etc.).  The two always-empty
spacer columns `''` and `' '` of the Python dict are omitted; `Kommentar`
models `row.get('Kommentar', '')` — no row constructed by
`generate_accounting_rows` ever sets that key, so it defaults to `""`. -/
structure AccountingRow where
  KonProj : String
  RG : String
  Aktivitet : String
  ProjAkt : String
  ProjKat : String
  Netto : ℚ
  Godkant_av : String
  Kommentar : String := ""
deriving DecidableEq

/-- Line 237: `users_data[users_data['Specialhantering'] != 'Automation']`
(a `NaN` cell also differs from `'Automation'`, hence the `Option`). -/
def non_automation_users (users : List User) : List User :=
  users.filter (fun u => u.Specialhantering != some "Automation")

/-- Lines 262 / 403: `users_data[users_data['Specialhantering'] == 'Automation']`. -/
def automation_users (users : List User) : List User :=
  users.filter (fun u => u.Specialhantering == some "Automation")

/-- Line 238: the distinct `RG` keys of the non-automation users; pandas
`groupby` iterates them in sorted order. -/
def rg_keys (users : List User) : List String :=
  ((non_automation_users users).map (·.RG)).dedup.insertionSort (fun a b => strLe a b = true)

/-- Line 241: the size of one `RG` group among the non-automation users. -/
def rg_count (users : List User) (rg : String) : ℕ :=
  ((non_automation_users users).filter (fun u => u.RG == rg)).length

/-- Lines 232-255: one row per distinct `RG` value among the users without
the `Automation` special-handling tag, `Netto = round(count * unit_price, 2)`;
no rows at all when `power_bi` is absent from the dict. -/
def power_bi_rows (users : List User) (d : LicenseDict) : List AccountingRow :=
  match getLic d .power_bi with
  | none => []
  | some power_bi_info =>
    (rg_keys users).flatMap (fun rg =>
      if 0 < rg_count users rg then
        [{ KonProj := "5420", RG := rg, Aktivitet := "738", ProjAkt := "", ProjKat := "",
           Netto := round2 ((rg_count users rg : ℚ) * power_bi_info.unit_price),
           Godkant_av := "John Munthe" }]
      else [])

/-- Lines 258-274: the automation bucket's pre-rounding net amount — the
automation-tagged users' `power_bi` seats (only when `power_bi` is present)
plus the totals of the three automation license types present. -/
def automation_net (users : List User) (d : LicenseDict) : ℚ :=
  (match getLic d .power_bi with
   | some pbi =>
     if 0 < (automation_users users).length then
       ((automation_users users).length : ℚ) * pbi.unit_price
     else 0
   | none => 0)
  + total_or_zero (getLic d .power_automate_rpa)
  + total_or_zero (getLic d .power_automate_plan)
  + total_or_zero (getLic d .power_automate_prem)

/-- Lines 293-300: the Microsoft 365 bucket's pre-rounding net amount. -/
def ms365_net (d : LicenseDict) : ℚ :=
  total_or_zero (getLic d .teams_eea)
  + total_or_zero (getLic d .copilot)
  + total_or_zero (getLic d .ms365_eea)

/-- Lines 277-289: the (always emitted) automation-project row. -/
def automation_row_def (users : List User) (table : List ProjectRow)
    (d : LicenseDict) : AccountingRow :=
  { KonProj := (get_project_settings table "20257601").KonProj, RG := "",
    Aktivitet := (get_project_settings table "20257601").Aktivitet, ProjAkt := "",
    ProjKat := (get_project_settings table "20257601").ProjKat,
    Netto := round2 (automation_net users d), Godkant_av := "John Munthe" }

/-- Lines 303-315: the (always emitted) Microsoft 365 project row. -/
def ms365_row_def (table : List ProjectRow) (d : LicenseDict) : AccountingRow :=
  { KonProj := (get_project_settings table "20257407").KonProj, RG := "",
    Aktivitet := (get_project_settings table "20257407").Aktivitet, ProjAkt := "",
    ProjKat := (get_project_settings table "20257407").ProjKat,
    Netto := round2 (ms365_net d), Godkant_av := "John Munthe" }

/-- Lines 322-332: the Teams Room row built for the matched `teams_rooms`
aggregate. -/
def teams_row_one (table : List ProjectRow) (i : LicenseLineItem) : AccountingRow :=
  { KonProj := (get_project_settings table "20257403").KonProj, RG := "",
    Aktivitet := (get_project_settings table "20257403").Aktivitet, ProjAkt := "",
    ProjKat := (get_project_settings table "20257403").ProjKat,
    Netto := round2 i.total, Godkant_av := "John Munthe" }

/-- Lines 318-334: the Teams Room row, emitted only when `teams_rooms` is in
the dict. -/
def teams_rows_def (table : List ProjectRow) (d : LicenseDict) : List AccountingRow :=
  match getLic d .teams_rooms with
  | none => []
  | some i => [teams_row_one table i]

/-- Lines 226-336: `generate_accounting_rows`.  Per-RG `power_bi` rows, then
always one automation row (settings of project `20257601`), then always one
Microsoft 365 row (project `20257407`), then one Teams Room row (project
`20257403`) exactly when `teams_rooms` is present. -/
def generate_accounting_rows (users : List User) (table : List ProjectRow)
    (d : LicenseDict) : List AccountingRow :=
  power_bi_rows users d
  ++ [automation_row_def users table d]
  ++ [ms365_row_def table d]
  ++ teams_rows_def table d

/-! ## Validation (`validate_accounting_rows`, lines 378-551)

The Python function communicates every comparison outcome through the logger
and falls off the end of its body, returning `None`.  The embedding therefore
returns a pair: the `ValidationTrace` reifies the logged comparison outcomes
(the function's only observable output), and the `Unit` component is the
value the caller receives.  The two bare `next(...)` lookups (lines 392 and
410) raise `StopIteration` when no row matches, modelled by the error case. -/

/-- Error raised by the bare `next(...)` calls of lines 392 and 410. -/
inductive VErr
  | stopIteration
deriving DecidableEq

/-- The comparison outcomes `validate_accounting_rows` writes to the log.
For the three-state fields, `none` means the whole check was skipped because
the license type is absent from the dict, `some none` that the license is
present but no matching accounting row was found, and `some (some b)` the
recorded result of the comparison. -/
structure ValidationTrace where
  power_bi_total : ℚ
  automation_total : ℚ
  ms365_total : ℚ
  teams_sec4 : Option (Option Bool)
  total_check : Option Bool
  automation_ok : Bool
  ms365_ok : Bool
  teams_sec6 : Option Bool
  copilot_check : Option (Option Bool)
  ms365eea_check : Option (Option Bool)
  prem_check : Option (Option Bool)
deriving DecidableEq

/-- Lines 422-438: the Teams Room check of section 4 — when the license is
present and a `P.20257403` row exists, compares
`round(total * unit_price, 2)` against `round(rowNet, 2)` for exact
equality. -/
def teams_sec4_check (accounting_rows : List AccountingRow) (d : LicenseDict) :
    Option (Option Bool) :=
  match getLic d .teams_rooms with
  | none => none
  | some teams_lic =>
    match accounting_rows.find? (fun r => r.KonProj == "P.20257403") with
    | none => some none
    | some teams_row =>
      some (some (round2 (teams_lic.total * teams_lic.unit_price) == round2 teams_row.Netto))

/-- Lines 496-511 (and the analogous blocks for `ms365_eea` and
`power_automate_prem`): looks for a row of the given project whose
`Kommentar` contains `needle` and compares `round(total * unit_price, 2)`
against `round(rowNet, 2)` for exact equality. -/
def kommentar_check (accounting_rows : List AccountingRow) (lic : Option LicenseLineItem)
    (proj : String) (needle : String) : Option (Option Bool) :=
  match lic with
  | none => none
  | some l =>
    match accounting_rows.find?
        (fun r => r.KonProj == proj && strContains (strLower r.Kommentar) needle) with
    | none => some none
    | some row => some (some (round2 (l.total * l.unit_price) == round2 row.Netto))

/-- Lines 459-465: the validator's recomputed automation sum. -/
def expected_automation_net (users : List User) (d : LicenseDict) : ℚ :=
  let base :=
    total_or_zero (getLic d .power_automate_rpa)
    + total_or_zero (getLic d .power_automate_plan)
    + total_or_zero (getLic d .power_automate_prem)
  match getLic d .power_bi with
  | some pbi =>
    if 0 < (automation_users users).length then
      base + ((automation_users users).length : ℚ) * pbi.unit_price
    else base
  | none => base

/-- Lines 378-551: `validate_accounting_rows`.  All comparison outcomes are
logged (first component); the caller receives `None` (second component). -/
def validate_accounting_rows (accounting_rows : List AccountingRow) (d : LicenseDict)
    (users : List User) : Except VErr (ValidationTrace × Unit) :=
  match accounting_rows.find? (fun r => r.KonProj == "P.20257601") with
  | none => .error .stopIteration
  | some automation_row =>
    match accounting_rows.find? (fun r => r.KonProj == "P.20257407") with
    | none => .error .stopIteration
    | some ms365_row =>
      let power_bi_total :=
        (accounting_rows.filter (fun r => r.KonProj == "5420")).foldl
          (fun acc r => acc + r.Netto) 0
      let automation_total := automation_row.Netto
      let ms365_total := ms365_row.Netto
      let total_sum := accounting_rows.foldl (fun acc r => acc + r.Netto) 0
      let total_check : Option Bool :=
        match getInvoiceTotal d with
        | none => none
        | some invoice_total => some (decide (|total_sum - invoice_total| ≤ 0.02))
      let automation_ok := decide (|automation_total - expected_automation_net users d| ≤ 0.02)
      let expected_ms365 :=
        total_or_zero (getLic d .teams_eea)
        + total_or_zero (getLic d .copilot)
        + total_or_zero (getLic d .ms365_eea)
      let ms365_ok := decide (|ms365_total - expected_ms365| ≤ 0.02)
      let expected_teams := total_or_zero (getLic d .teams_rooms)
      let teams_sec6 : Option Bool :=
        match accounting_rows.find? (fun r => r.KonProj == "P.20257403") with
        | none => none
        | some teams_row => some (decide (|teams_row.Netto - expected_teams| ≤ 0.02))
      .ok
        ({ power_bi_total := power_bi_total
           automation_total := automation_total
           ms365_total := ms365_total
           teams_sec4 := teams_sec4_check accounting_rows d
           total_check := total_check
           automation_ok := automation_ok
           ms365_ok := ms365_ok
           teams_sec6 := teams_sec6
           copilot_check := kommentar_check accounting_rows (getLic d .copilot)
             "P.20257407" "copilot"
           ms365eea_check := kommentar_check accounting_rows (getLic d .ms365_eea)
             "P.20257407" "ms365"
           prem_check := kommentar_check accounting_rows (getLic d .power_automate_prem)
             "P.20257601" "prem" }, ())

/-! ## Definitions following the spec's words (for comparison with the code) -/

/-- Follows the spec's words: a token of the vendor's numeric format —
digits with optional spaces as thousands separators, then a comma as decimal
separator, then fractional digits. -/
def vendorShape (s : String) : Bool :=
  match breakAt (fun c => c = ',') s.data with
  | (ip, _ :: fp) =>
    ip.any (·.isDigit) && ip.all (fun c => c.isDigit || c = ' ')
      && !fp.isEmpty && fp.all (·.isDigit)
  | (_, []) => false

/-- Follows the spec's words: the exact decimal value of a vendor-format
token — the token with spaces removed and the comma read as a decimal
point. -/
def vendorValue (s : String) : ℚ :=
  match breakAt (fun c => c = ',') s.data with
  | (ip, _ :: fp) =>
    (digitsVal (ip.filter (fun c => c != ' ')) : ℚ) + (digitsVal fp : ℚ) / 10 ^ fp.length
  | (_, []) => 0

/-- Follows the spec's words: stripping the vendor prefix `P.` means removing
it from the front of the identifier (contrast `stripP`, which removes every
occurrence). -/
def stripPrefixSpec (project_id : String) : String :=
  if startsWithPdot project_id then ⟨project_id.data.drop 2⟩ else project_id

/-- Follows the spec's words: the automation bucket's expected net amount —
the number of automation-tagged roster persons times the per-person license's
unit price when that license type is present, plus the summed totals of the
automation-affiliated license types present. -/
def spec_automation_net (users : List User) (d : LicenseDict) : ℚ :=
  ((getLic d .power_bi).elim 0 fun pbi =>
    ((automation_users users).length : ℚ) * pbi.unit_price)
  + ((getLic d .power_automate_rpa).elim 0 (·.total))
  + ((getLic d .power_automate_plan).elim 0 (·.total))
  + ((getLic d .power_automate_prem).elim 0 (·.total))

/-- Follows the spec's words: the workplace bucket's expected net amount —
the summed totals of its three license types, those present. -/
def spec_ms365_net (d : LicenseDict) : ℚ :=
  ((getLic d .teams_eea).elim 0 (·.total))
  + ((getLic d .copilot).elim 0 (·.total))
  + ((getLic d .ms365_eea).elim 0 (·.total))

/-! ## Concrete inputs used by witnesses and counterexamples -/

/-- A roster with a single untagged person. -/
def one_user : List User :=
  [{ Namn := "Anna", RG := "RG1", Kostnadsstalle := "K1", Specialhantering := none }]

/-- An aggregate whose `power_bi` unit price has three decimals (e.g. the mean
of two matched prices `100.00` and `100.014`). -/
def d_price3 : LicenseDict :=
  [.lic .power_bi { quantity := 1, unit_price := 100.007, total := 100.007 },
   .invoiceTotal none]

/-- An aggregate with a single automation license of three-decimal total. -/
def d_rpa3 : LicenseDict :=
  [.lic .power_automate_rpa { quantity := 1, unit_price := 0.007, total := 0.007 },
   .invoiceTotal none]

/-- An aggregate with a single workplace license of three-decimal total. -/
def d_eea3 : LicenseDict :=
  [.lic .teams_eea { quantity := 1, unit_price := 0.007, total := 0.007 },
   .invoiceTotal none]

/-- An aggregate with a Teams Room line whose unit price is not `1`. -/
def d_teams : LicenseDict :=
  [.lic .teams_rooms { quantity := 50, unit_price := 2, total := 100 },
   .invoiceTotal none]

/-- Hand-written accounting rows whose automation row deviates from the
(empty) license data by far more than the tolerance. -/
def rows_bad_auto : List AccountingRow :=
  [{ KonProj := "P.20257601", RG := "", Aktivitet := "050", ProjAkt := "", ProjKat := "5420",
     Netto := 100, Godkant_av := "John Munthe" },
   { KonProj := "P.20257407", RG := "", Aktivitet := "738", ProjAkt := "", ProjKat := "5420",
     Netto := 0, Godkant_av := "John Munthe" }]

/-- New-layout matches for the `C2` witness: one captured `power_bi` line. -/
def nm_w : LicenseType → List MatchTriple
  | .power_bi => [("2,0", "100,00", "150,00")]
  | _ => []

/-- Legacy-layout matches for the `C2` witness: a second `power_bi` line. -/
def om_w : LicenseType → List MatchTriple
  | .power_bi => [("1,0", "50,00", "50,00")]
  | _ => []

/-- The dict `parse_license_info` produces on `nm_w`/`om_w`. -/
def d_w : LicenseDict :=
  [.lic .power_bi { quantity := 3, unit_price := 75, total := 200 },
   .invoiceTotal none]

/-- The validator's logged trace for a run of the pipeline on an empty
roster, empty settings table and empty license dict. -/
def trace_empty_run : ValidationTrace :=
  { power_bi_total := 0,
    automation_total := round2 (spec_automation_net [] []),
    ms365_total := round2 (spec_ms365_net []),
    teams_sec4 := none, total_check := none,
    automation_ok :=
      decide (|round2 (spec_automation_net [] []) - spec_automation_net [] []| ≤ 0.02),
    ms365_ok := decide (|round2 (spec_ms365_net []) - spec_ms365_net []| ≤ 0.02),
    teams_sec6 := none, copilot_check := none, ms365eea_check := none, prem_check := none }

/-- The validator's logged trace for the hand-written rows `rows_bad_auto`
against an empty license dict. -/
def trace_bad_auto : ValidationTrace :=
  { power_bi_total := 0, automation_total := 100, ms365_total := 0,
    teams_sec4 := none, total_check := none,
    automation_ok := decide (|(100 : ℚ) - expected_automation_net [] []| ≤ 0.02),
    ms365_ok := decide (|(0 : ℚ) - (total_or_zero (getLic [] .teams_eea)
      + total_or_zero (getLic [] .copilot) + total_or_zero (getLic [] .ms365_eea))| ≤ 0.02),
    teams_sec6 := none, copilot_check := none, ms365eea_check := none, prem_check := none }

/-! ## Helper lemmas -/

theorem round2_int_div (q : ℚ) : ∃ n : ℤ, round2 q = (n : ℚ) / 100 :=
  ⟨roundHalfEven (q * 100), rfl⟩

theorem foldl_add_eq_sum {α : Type} (f : α → ℚ) :
    ∀ (l : List α) (init : ℚ), l.foldl (fun acc x => acc + f x) init = init + (l.map f).sum
  | [], init => by simp
  | x :: xs, init => by
    simp [foldl_add_eq_sum f xs, add_assoc]

theorem foldl_add_netto (l : List AccountingRow) :
    l.foldl (fun acc r => acc + r.Netto) 0 = (l.map (·.Netto)).sum := by
  simpa using foldl_add_eq_sum (·.Netto) l 0

theorem flatMap_eq_map_of_singleton {α β : Type} (keys : List α) (f : α → List β) (g : α → β)
    (h : ∀ a ∈ keys, f a = [g a]) : keys.flatMap f = keys.map g := by
  induction keys with
  | nil => rfl
  | cons k ks ih =>
    simp only [List.flatMap_cons, List.map_cons, h k (List.mem_cons_self k ks)]
    rw [ih fun a ha => h a (List.mem_cons_of_mem k ha)]
    rfl

theorem mem_rg_keys_iff (users : List User) (rg : String) :
    rg ∈ rg_keys users ↔ rg ∈ (non_automation_users users).map (·.RG) := by
  unfold rg_keys
  rw [(List.perm_insertionSort _ _).mem_iff, List.mem_dedup]

theorem rg_keys_nodup (users : List User) : (rg_keys users).Nodup := by
  unfold rg_keys
  exact (List.perm_insertionSort _ _).nodup_iff.mpr (List.nodup_dedup _)

theorem rg_count_pos_of_mem (users : List User) (rg : String)
    (h : rg ∈ rg_keys users) : 0 < rg_count users rg := by
  rw [mem_rg_keys_iff, List.mem_map] at h
  obtain ⟨u, hu, hrg⟩ := h
  have : u ∈ (non_automation_users users).filter (fun u => u.RG == rg) :=
    List.mem_filter.mpr ⟨hu, by simp [hrg]⟩
  exact List.length_pos.mpr (List.ne_nil_of_mem this)

theorem power_bi_rows_none (users : List User) (d : LicenseDict)
    (h : getLic d .power_bi = none) : power_bi_rows users d = [] := by
  unfold power_bi_rows
  rw [h]

theorem power_bi_rows_some (users : List User) (d : LicenseDict) (pbi : LicenseLineItem)
    (h : getLic d .power_bi = some pbi) :
    power_bi_rows users d = (rg_keys users).map (fun rg =>
      { KonProj := "5420", RG := rg, Aktivitet := "738", ProjAkt := "", ProjKat := "",
        Netto := round2 ((rg_count users rg : ℚ) * pbi.unit_price),
        Godkant_av := "John Munthe" }) := by
  unfold power_bi_rows
  rw [h]
  exact flatMap_eq_map_of_singleton _ _ _
    (fun rg hrg => by rw [if_pos (rg_count_pos_of_mem users rg hrg)])

theorem power_bi_rows_KonProj (users : List User) (d : LicenseDict) :
    ∀ r ∈ power_bi_rows users d, r.KonProj = "5420" := by
  intro r hr
  cases h : getLic d .power_bi with
  | none => rw [power_bi_rows_none users d h] at hr; cases hr
  | some pbi =>
    rw [power_bi_rows_some users d pbi h, List.mem_map] at hr
    obtain ⟨rg, _, rfl⟩ := hr
    rfl

theorem stripP_20257601 : stripP "20257601" = "20257601" := by decide

theorem stripP_20257407 : stripP "20257407" = "20257407" := by decide

theorem stripP_20257403 : stripP "20257403" = "20257403" := by decide

theorem gps_KonProj (table : List ProjectRow) (id : String) (h : stripP id = id) :
    (get_project_settings table id).KonProj = "P." ++ id := by
  unfold get_project_settings
  rw [h]
  cases hfind : table.find? (fun r => r.ProjektID == id) with
  | some p =>
    have hp : p.ProjektID = id := by simpa using List.find?_some hfind
    simp [hfind, hp]
  | none =>
    simp only [hfind]
    by_cases h1 : (id == "20257601") = true
    · have : id = "20257601" := by simpa using h1
      subst this; simp
    by_cases h2 : (id == "20257407") = true
    · have : id = "20257407" := by simpa using h2
      subst this; simp [h1]
    by_cases h3 : (id == "20257403") = true
    · have : id = "20257403" := by simpa using h3
      subst this; simp [h1, h2]
    simp [h1, h2, h3]

theorem automation_row_KonProj (users : List User) (table : List ProjectRow)
    (d : LicenseDict) : (automation_row_def users table d).KonProj = "P.20257601" := by
  show (get_project_settings table "20257601").KonProj = "P.20257601"
  rw [gps_KonProj table "20257601" stripP_20257601]
  decide

theorem ms365_row_KonProj (table : List ProjectRow) (d : LicenseDict) :
    (ms365_row_def table d).KonProj = "P.20257407" := by
  show (get_project_settings table "20257407").KonProj = "P.20257407"
  rw [gps_KonProj table "20257407" stripP_20257407]
  decide

theorem teams_row_KonProj (table : List ProjectRow) (i : LicenseLineItem) :
    (teams_row_one table i).KonProj = "P.20257403" := by
  show (get_project_settings table "20257403").KonProj = "P.20257403"
  rw [gps_KonProj table "20257403" stripP_20257403]
  decide

theorem total_or_zero_eq_elim (o : Option LicenseLineItem) :
    total_or_zero o = o.elim 0 (·.total) := by
  cases o <;> rfl

theorem automation_net_eq_spec (users : List User) (d : LicenseDict) :
    automation_net users d = spec_automation_net users d := by
  unfold automation_net spec_automation_net
  simp only [total_or_zero_eq_elim]
  cases h : getLic d .power_bi with
  | none => simp
  | some pbi =>
    simp only [Option.elim]
    by_cases hn : 0 < (automation_users users).length
    · rw [if_pos hn]
    · rw [if_neg hn]
      have h0 : (automation_users users).length = 0 := by omega
      rw [h0]
      push_cast
      ring

theorem expected_automation_net_eq_spec (users : List User) (d : LicenseDict) :
    expected_automation_net users d = spec_automation_net users d := by
  unfold expected_automation_net spec_automation_net
  simp only [total_or_zero_eq_elim]
  cases h : getLic d .power_bi with
  | none => simp
  | some pbi =>
    simp only [Option.elim]
    by_cases hn : 0 < (automation_users users).length
    · rw [if_pos hn]; ring
    · rw [if_neg hn]
      have h0 : (automation_users users).length = 0 := by omega
      rw [h0]
      push_cast
      ring

theorem ms365_net_eq_spec (d : LicenseDict) : ms365_net d = spec_ms365_net d := by
  unfold ms365_net spec_ms365_net
  simp only [total_or_zero_eq_elim]

theorem generate_rows_eq (users : List User) (table : List ProjectRow) (d : LicenseDict) :
    generate_accounting_rows users table d =
      power_bi_rows users d ++ automation_row_def users table d ::
        ms365_row_def table d :: teams_rows_def table d := by
  unfold generate_accounting_rows
  simp

theorem teams_rows_KonProj (table : List ProjectRow) (d : LicenseDict) :
    ∀ r ∈ teams_rows_def table d, r.KonProj = "P.20257403" := by
  unfold teams_rows_def
  cases getLic d .teams_rooms with
  | none => simp
  | some i =>
    intro r hr
    simp only [List.mem_singleton] at hr
    subst hr
    exact teams_row_KonProj table i

theorem generate_rows_Kommentar (users : List User) (table : List ProjectRow)
    (d : LicenseDict) : ∀ r ∈ generate_accounting_rows users table d, r.Kommentar = "" := by
  intro r hr
  rw [generate_rows_eq] at hr
  rcases List.mem_append.mp hr with h1 | h2
  · cases h : getLic d .power_bi with
    | none => rw [power_bi_rows_none users d h] at h1; cases h1
    | some pbi =>
      rw [power_bi_rows_some users d pbi h, List.mem_map] at h1
      obtain ⟨rg, _, rfl⟩ := h1
      rfl
  · rw [List.mem_cons, List.mem_cons] at h2
    rcases h2 with rfl | rfl | h3
    · rfl
    · rfl
    · unfold teams_rows_def at h3
      revert h3
      cases getLic d .teams_rooms with
      | none => intro h3; cases h3
      | some i =>
        intro h3
        simp only [List.mem_singleton] at h3
        subst h3
        rfl

theorem generate_filter_5420 (users : List User) (table : List ProjectRow) (d : LicenseDict) :
    (generate_accounting_rows users table d).filter (fun r => r.KonProj == "5420") =
      power_bi_rows users d := by
  rw [generate_rows_eq, List.filter_append]
  have h1 : (power_bi_rows users d).filter (fun r => r.KonProj == "5420") =
      power_bi_rows users d :=
    List.filter_eq_self.mpr (fun r hr => by simp [power_bi_rows_KonProj users d r hr])
  have h2 : (automation_row_def users table d :: ms365_row_def table d ::
      teams_rows_def table d).filter (fun r => r.KonProj == "5420") = [] := by
    apply List.filter_eq_nil_iff.mpr
    intro r hr
    rw [List.mem_cons, List.mem_cons] at hr
    rcases hr with rfl | rfl | h3
    · simp [automation_row_KonProj]
    · simp [ms365_row_KonProj]
    · simp [teams_rows_KonProj table d r h3]
  rw [h1, h2, List.append_nil]

theorem generate_filter_auto (users : List User) (table : List ProjectRow) (d : LicenseDict) :
    (generate_accounting_rows users table d).filter (fun r => r.KonProj == "P.20257601") =
      [automation_row_def users table d] := by
  rw [generate_rows_eq, List.filter_append]
  have h1 : (power_bi_rows users d).filter (fun r => r.KonProj == "P.20257601") = [] :=
    List.filter_eq_nil_iff.mpr (fun r hr => by simp [power_bi_rows_KonProj users d r hr])
  have h3 : (teams_rows_def table d).filter (fun r => r.KonProj == "P.20257601") = [] :=
    List.filter_eq_nil_iff.mpr (fun r hr => by simp [teams_rows_KonProj table d r hr])
  rw [h1, List.filter_cons, List.filter_cons]
  simp [automation_row_KonProj, ms365_row_KonProj, h3]

theorem generate_filter_ms365 (users : List User) (table : List ProjectRow) (d : LicenseDict) :
    (generate_accounting_rows users table d).filter (fun r => r.KonProj == "P.20257407") =
      [ms365_row_def table d] := by
  rw [generate_rows_eq, List.filter_append]
  have h1 : (power_bi_rows users d).filter (fun r => r.KonProj == "P.20257407") = [] :=
    List.filter_eq_nil_iff.mpr (fun r hr => by simp [power_bi_rows_KonProj users d r hr])
  have h3 : (teams_rows_def table d).filter (fun r => r.KonProj == "P.20257407") = [] :=
    List.filter_eq_nil_iff.mpr (fun r hr => by simp [teams_rows_KonProj table d r hr])
  rw [h1, List.filter_cons, List.filter_cons]
  simp [automation_row_KonProj, ms365_row_KonProj, h3]

theorem generate_filter_teams (users : List User) (table : List ProjectRow) (d : LicenseDict) :
    (generate_accounting_rows users table d).filter (fun r => r.KonProj == "P.20257403") =
      teams_rows_def table d := by
  rw [generate_rows_eq, List.filter_append]
  have h1 : (power_bi_rows users d).filter (fun r => r.KonProj == "P.20257403") = [] :=
    List.filter_eq_nil_iff.mpr (fun r hr => by simp [power_bi_rows_KonProj users d r hr])
  have h3 : (teams_rows_def table d).filter (fun r => r.KonProj == "P.20257403") =
      teams_rows_def table d :=
    List.filter_eq_self.mpr (fun r hr => by simp [teams_rows_KonProj table d r hr])
  rw [h1, List.filter_cons, List.filter_cons]
  simp [automation_row_KonProj, ms365_row_KonProj, h3]

theorem generate_find_auto (users : List User) (table : List ProjectRow) (d : LicenseDict) :
    (generate_accounting_rows users table d).find? (fun r => r.KonProj == "P.20257601") =
      some (automation_row_def users table d) := by
  rw [generate_rows_eq, List.find?_append]
  have h1 : (power_bi_rows users d).find? (fun r => r.KonProj == "P.20257601") = none :=
    List.find?_eq_none.mpr (fun r hr => by simp [power_bi_rows_KonProj users d r hr])
  rw [h1]
  rw [List.find?_cons_of_pos _ (by simp [automation_row_KonProj])]
  rfl

theorem generate_find_ms365 (users : List User) (table : List ProjectRow) (d : LicenseDict) :
    (generate_accounting_rows users table d).find? (fun r => r.KonProj == "P.20257407") =
      some (ms365_row_def table d) := by
  rw [generate_rows_eq, List.find?_append]
  have h1 : (power_bi_rows users d).find? (fun r => r.KonProj == "P.20257407") = none :=
    List.find?_eq_none.mpr (fun r hr => by simp [power_bi_rows_KonProj users d r hr])
  rw [h1]
  rw [List.find?_cons_of_neg _ (by simp [automation_row_KonProj])]
  rw [List.find?_cons_of_pos _ (by simp [ms365_row_KonProj])]
  rfl

theorem generate_find_teams (users : List User) (table : List ProjectRow) (d : LicenseDict) :
    (generate_accounting_rows users table d).find? (fun r => r.KonProj == "P.20257403") =
      (getLic d .teams_rooms).map (fun i => teams_row_one table i) := by
  rw [generate_rows_eq, List.find?_append]
  have h1 : (power_bi_rows users d).find? (fun r => r.KonProj == "P.20257403") = none :=
    List.find?_eq_none.mpr (fun r hr => by simp [power_bi_rows_KonProj users d r hr])
  rw [h1]
  rw [List.find?_cons_of_neg _ (by simp [automation_row_KonProj])]
  rw [List.find?_cons_of_neg _ (by simp [ms365_row_KonProj])]
  show (teams_rows_def table d).find? _ = _
  unfold teams_rows_def
  cases getLic d .teams_rooms with
  | none => rfl
  | some i =>
    rw [List.find?_cons_of_pos _ (by simp [teams_row_KonProj])]
    rfl

/-! ## Claim theorems -/

/-- C1: the claim says line-item extraction fails with `NoLicenseDataError`
exactly when no license type matched.  The code cannot raise it: line 208
stores the `'invoice_total'` key in `license_info` before the `if not
license_info` check of line 211, so the dict is never empty, and an input in
which no license type matched anything (and no invoice total was found)
returns successfully with a dict holding only `invoice_total = None`. -/
theorem C1_no_match_returns_ok :
    parse_license_info (fun _ => []) (fun _ => []) none = .ok [.invoiceTotal none] := rfl

/-- C10: every row the allocation engine emits has a net amount that is an
integer number of hundredths (the result of rounding to two decimal places)
and the fixed approver string `John Munthe`. -/
theorem C10_row_invariants (users : List User) (table : List ProjectRow) (d : LicenseDict) :
    ∀ r ∈ generate_accounting_rows users table d,
      (∃ n : ℤ, r.Netto = (n : ℚ) / 100) ∧ r.Godkant_av = "John Munthe" := by
  intro r hr
  rw [generate_rows_eq] at hr
  rcases List.mem_append.mp hr with h1 | h2
  · cases h : getLic d .power_bi with
    | none => rw [power_bi_rows_none users d h] at h1; cases h1
    | some pbi =>
      rw [power_bi_rows_some users d pbi h, List.mem_map] at h1
      obtain ⟨rg, _, rfl⟩ := h1
      exact ⟨round2_int_div _, rfl⟩
  · rw [List.mem_cons, List.mem_cons] at h2
    rcases h2 with rfl | rfl | h3
    · exact ⟨round2_int_div _, rfl⟩
    · exact ⟨round2_int_div _, rfl⟩
    · unfold teams_rows_def at h3
      revert h3
      cases getLic d .teams_rooms with
      | none => intro h3; cases h3
      | some i =>
        intro h3
        rw [List.mem_singleton] at h3
        subst h3
        exact ⟨round2_int_div _, rfl⟩

/-- Witness for `C10_row_invariants`: the automation row of an empty run. -/
theorem C10_witness :
    automation_row_def [] [] [] ∈ generate_accounting_rows [] [] [] ∧
      ((∃ n : ℤ, (automation_row_def [] [] []).Netto = (n : ℚ) / 100) ∧
        (automation_row_def [] [] []).Godkant_av = "John Munthe") := by
  have hmem : automation_row_def [] [] [] ∈ generate_accounting_rows [] [] [] := by
    rw [generate_rows_eq]
    exact List.mem_append.mpr (Or.inr (List.mem_cons_self _ _))
  exact ⟨hmem, C10_row_invariants [] [] [] _ hmem⟩

/-- C3 (amended): when `power_bi` is present, the engine emits exactly one
per-person row per distinct region group of the non-automation roster (no
duplicates, and exactly the groups occurring), each with net amount equal to
the group size times the unit price, rounded to two decimal places (the claim
omits the rounding); when `power_bi` is absent, no per-group rows are emitted
and the output does not depend on the roster at all. -/
theorem C3_per_person_rows (users : List User) (table : List ProjectRow) (d : LicenseDict) :
    (∀ pbi, getLic d .power_bi = some pbi →
      (((generate_accounting_rows users table d).filter
          (fun r => r.KonProj == "5420")).map (·.RG)).Nodup ∧
      (∀ rg : String,
        rg ∈ ((generate_accounting_rows users table d).filter
            (fun r => r.KonProj == "5420")).map (·.RG) ↔
          rg ∈ (non_automation_users users).map (·.RG)) ∧
      (∀ r ∈ (generate_accounting_rows users table d).filter (fun r => r.KonProj == "5420"),
        r.Netto = round2 ((rg_count users r.RG : ℚ) * pbi.unit_price))) ∧
    (getLic d .power_bi = none →
      (generate_accounting_rows users table d).filter (fun r => r.KonProj == "5420") = [] ∧
      generate_accounting_rows users table d = generate_accounting_rows [] table d) := by
  constructor
  · intro pbi h
    rw [generate_filter_5420, power_bi_rows_some users d pbi h]
    refine ⟨?_, ?_, ?_⟩
    · rw [List.map_map]
      show (List.map (fun rg : String => rg) (rg_keys users)).Nodup
      simpa using rg_keys_nodup users
    · intro rg
      rw [List.map_map]
      show rg ∈ List.map (fun rg : String => rg) (rg_keys users) ↔ _
      simpa using mem_rg_keys_iff users rg
    · intro r hr
      rw [List.mem_map] at hr
      obtain ⟨rg, _, rfl⟩ := hr
      rfl
  · intro h
    constructor
    · rw [generate_filter_5420, power_bi_rows_none users d h]
    · have hnet : automation_net users d = automation_net [] d := by
        unfold automation_net
        rw [h]
      rw [generate_rows_eq, generate_rows_eq, power_bi_rows_none users d h,
        power_bi_rows_none [] d h]
      unfold automation_row_def
      rw [hnet]

/-- Witness for `C3_per_person_rows`, discharging both hypotheses on
concrete inputs. -/
theorem C3_witness :
    (getLic d_price3 .power_bi =
        some { quantity := 1, unit_price := 100.007, total := 100.007 }) ∧
      (((generate_accounting_rows one_user [] d_price3).filter
          (fun r => r.KonProj == "5420")).map (·.RG)).Nodup ∧
      (getLic d_rpa3 .power_bi = none ∧
        (generate_accounting_rows one_user [] d_rpa3).filter
          (fun r => r.KonProj == "5420") = []) := by
  refine ⟨rfl, ?_, rfl, ?_⟩
  · exact ((C3_per_person_rows one_user [] d_price3).1 _ rfl).1
  · exact ((C3_per_person_rows one_user [] d_rpa3).2 rfl).1

/-- Counterexample to C3 as stated: with one roster person in group `RG1`
and a `power_bi` unit price of `100.007` (a mean of two matched prices), the
emitted per-group net amount is the rounded `100.01`, not
`1 * 100.007`. -/
theorem C3_counterexample :
    ((generate_accounting_rows one_user [] d_price3).filter
        (fun r => r.KonProj == "5420")).map (·.Netto) = [(100.01 : ℚ)] ∧
      ¬((100.01 : ℚ) = (1 : ℚ) * 100.007) := by
  constructor
  · rw [generate_filter_5420,
      power_bi_rows_some one_user d_price3
        { quantity := 1, unit_price := 100.007, total := 100.007 } rfl]
    have hk : rg_keys one_user = ["RG1"] := by decide
    rw [hk]
    simp only [List.map_cons, List.map_nil]
    have hc : rg_count one_user "RG1" = 1 := by decide
    show [round2 ((rg_count one_user "RG1" : ℚ) * 100.007)] = [(100.01 : ℚ)]
    rw [hc]
    norm_num [round2, roundHalfEven]
  · norm_num

/-- C4 (amended): the engine always emits exactly one automation-bucket row
(project `20257601`), using the settings resolved for it, with net amount
equal to the automation seat count times the `power_bi` unit price (when that
type is present) plus the totals of the present automation license types —
rounded to two decimal places (the claim omits the rounding). -/
theorem C4_automation_row (users : List User) (table : List ProjectRow) (d : LicenseDict) :
    (generate_accounting_rows users table d).filter (fun r => r.KonProj == "P.20257601") =
      [{ KonProj := "P.20257601", RG := "",
         Aktivitet := (get_project_settings table "20257601").Aktivitet, ProjAkt := "",
         ProjKat := (get_project_settings table "20257601").ProjKat,
         Netto := round2 (spec_automation_net users d), Godkant_av := "John Munthe" }] := by
  rw [generate_filter_auto]
  unfold automation_row_def
  rw [automation_net_eq_spec, gps_KonProj table "20257601" stripP_20257601,
    show ("P." ++ "20257601" : String) = "P.20257601" from by decide]

/-- Counterexample to C4 as stated: with only a `power_automate_rpa` total of
`0.007`, the automation row's net amount is the rounded `0.01`, not the
claimed sum `0.007`. -/
theorem C4_counterexample :
    ((generate_accounting_rows [] [] d_rpa3).filter
        (fun r => r.KonProj == "P.20257601")).map (·.Netto) = [(0.01 : ℚ)] ∧
      ¬((0.01 : ℚ) = 0.007) := by
  constructor
  · rw [generate_filter_auto]
    simp only [List.map_cons, List.map_nil]
    show [round2 (automation_net [] d_rpa3)] = [(0.01 : ℚ)]
    have h1 : getLic d_rpa3 .power_bi = none := rfl
    have h2 : getLic d_rpa3 .power_automate_rpa =
        some { quantity := 1, unit_price := 0.007, total := 0.007 } := rfl
    have h3 : getLic d_rpa3 .power_automate_plan = none := rfl
    have h4 : getLic d_rpa3 .power_automate_prem = none := rfl
    unfold automation_net
    rw [h1, h2, h3, h4]
    show [round2 (0 + total_or_zero (some { quantity := 1, unit_price := 0.007, total := 0.007 })
      + total_or_zero none + total_or_zero none)] = [(0.01 : ℚ)]
    unfold total_or_zero
    norm_num [round2, roundHalfEven]
  · norm_num

/-- C5 (amended): the engine always emits exactly one workplace-bucket row
(project `20257407`) with net amount the rounded sum of the present
`teams_eea`, `copilot` and `ms365_eea` totals (zero when none are present),
and a meeting-room row (project `20257403`) exactly when `teams_rooms` is
present, with net amount that type's total rounded to two decimal places
(the claim omits the rounding). -/
theorem C5_workplace_meeting_rows (users : List User) (table : List ProjectRow)
    (d : LicenseDict) :
    ((generate_accounting_rows users table d).filter (fun r => r.KonProj == "P.20257407") =
      [{ KonProj := "P.20257407", RG := "",
         Aktivitet := (get_project_settings table "20257407").Aktivitet, ProjAkt := "",
         ProjKat := (get_project_settings table "20257407").ProjKat,
         Netto := round2 (spec_ms365_net d), Godkant_av := "John Munthe" }]) ∧
    ((generate_accounting_rows users table d).filter (fun r => r.KonProj == "P.20257403") =
      (getLic d .teams_rooms).elim [] (fun i =>
        [{ KonProj := "P.20257403", RG := "",
           Aktivitet := (get_project_settings table "20257403").Aktivitet, ProjAkt := "",
           ProjKat := (get_project_settings table "20257403").ProjKat,
           Netto := round2 i.total, Godkant_av := "John Munthe" }])) := by
  constructor
  · rw [generate_filter_ms365]
    unfold ms365_row_def
    rw [ms365_net_eq_spec, gps_KonProj table "20257407" stripP_20257407,
      show ("P." ++ "20257407" : String) = "P.20257407" from by decide]
  · rw [generate_filter_teams]
    unfold teams_rows_def teams_row_one
    cases getLic d .teams_rooms with
    | none => rfl
    | some i =>
      simp only [Option.elim]
      rw [gps_KonProj table "20257403" stripP_20257403,
        show ("P." ++ "20257403" : String) = "P.20257403" from by decide]

/-- Counterexample to C5 as stated: with only a `teams_eea` total of `0.007`,
the workplace row's net amount is the rounded `0.01`, not the claimed summed
total `0.007`. -/
theorem C5_counterexample :
    ((generate_accounting_rows [] [] d_eea3).filter
        (fun r => r.KonProj == "P.20257407")).map (·.Netto) = [(0.01 : ℚ)] ∧
      ¬((0.01 : ℚ) = 0.007) := by
  constructor
  · rw [generate_filter_ms365]
    simp only [List.map_cons, List.map_nil]
    show [round2 (ms365_net d_eea3)] = [(0.01 : ℚ)]
    have h1 : getLic d_eea3 .teams_eea =
        some { quantity := 1, unit_price := 0.007, total := 0.007 } := rfl
    have h2 : getLic d_eea3 .copilot = none := rfl
    have h3 : getLic d_eea3 .ms365_eea = none := rfl
    unfold ms365_net
    rw [h1, h2, h3]
    unfold total_or_zero
    norm_num [round2, roundHalfEven]
  · norm_num

theorem kommentar_pred_false (proj needle : String) (hne : needle.data.isEmpty = false)
    (r : AccountingRow) (hk : r.Kommentar = "") :
    (r.KonProj == proj && strContains (strLower r.Kommentar) needle) = false := by
  rw [hk]
  have h : strContains (strLower "") needle = false := by
    show needle.data.isEmpty = false
    exact hne
  rw [h, Bool.and_false]

theorem kommentar_check_generate (users : List User) (table : List ProjectRow)
    (d : LicenseDict) (lic : Option LicenseLineItem) (proj needle : String)
    (hne : needle.data.isEmpty = false) :
    kommentar_check (generate_accounting_rows users table d) lic proj needle =
      lic.map (fun _ => none) := by
  unfold kommentar_check
  cases lic with
  | none => rfl
  | some l =>
    have hf : (generate_accounting_rows users table d).find?
        (fun r => r.KonProj == proj && strContains (strLower r.Kommentar) needle) = none :=
      List.find?_eq_none.mpr (fun r hr => by
        simp [kommentar_pred_false proj needle hne r (generate_rows_Kommentar users table d r hr)])
    rw [hf]
    rfl

theorem validator_trace_on_generate (users : List User) (table : List ProjectRow)
    (d : LicenseDict) :
    validate_accounting_rows (generate_accounting_rows users table d) d users =
      .ok ({ power_bi_total := ((power_bi_rows users d).map (·.Netto)).sum,
             automation_total := round2 (spec_automation_net users d),
             ms365_total := round2 (spec_ms365_net d),
             teams_sec4 := (getLic d .teams_rooms).map (fun i =>
               some (round2 (i.total * i.unit_price) == round2 (round2 i.total))),
             total_check := (getInvoiceTotal d).map (fun it =>
               decide (|((generate_accounting_rows users table d).map (·.Netto)).sum - it|
                 ≤ 0.02)),
             automation_ok :=
               decide (|round2 (spec_automation_net users d) - spec_automation_net users d|
                 ≤ 0.02),
             ms365_ok := decide (|round2 (spec_ms365_net d) - spec_ms365_net d| ≤ 0.02),
             teams_sec6 := (getLic d .teams_rooms).map (fun i =>
               decide (|round2 i.total - i.total| ≤ 0.02)),
             copilot_check := (getLic d .copilot).map (fun _ => none),
             ms365eea_check := (getLic d .ms365_eea).map (fun _ => none),
             prem_check := (getLic d .power_automate_prem).map (fun _ => none) }, ()) := by
  unfold validate_accounting_rows
  rw [generate_find_auto, generate_find_ms365]
  dsimp only
  rw [Except.ok.injEq, Prod.mk.injEq]
  refine ⟨?_, rfl⟩
  rw [ValidationTrace.mk.injEq]
  refine ⟨?_, ?_, ?_, ?_, ?_, ?_, ?_, ?_, ?_, ?_, ?_⟩
  · rw [generate_filter_5420, foldl_add_netto]
  · show round2 (automation_net users d) = round2 (spec_automation_net users d)
    rw [automation_net_eq_spec]
  · show round2 (ms365_net d) = round2 (spec_ms365_net d)
    rw [ms365_net_eq_spec]
  · unfold teams_sec4_check
    cases hti : getLic d .teams_rooms with
    | none => rfl
    | some i =>
      rw [generate_find_teams, hti]
      rfl
  · cases hit : getInvoiceTotal d with
    | none => rfl
    | some it =>
      rw [foldl_add_netto]
      rfl
  · show decide (|round2 (automation_net users d) - expected_automation_net users d| ≤ 0.02)
      = decide (|round2 (spec_automation_net users d) - spec_automation_net users d| ≤ 0.02)
    rw [automation_net_eq_spec, expected_automation_net_eq_spec]
  · show decide (|round2 (ms365_net d) - ms365_net d| ≤ 0.02)
      = decide (|round2 (spec_ms365_net d) - spec_ms365_net d| ≤ 0.02)
    rw [ms365_net_eq_spec]
  · rw [generate_find_teams]
    cases hti : getLic d .teams_rooms with
    | none => rfl
    | some i => rfl
  · rw [kommentar_check_generate users table d _ _ _ (by decide)]
  · rw [kommentar_check_generate users table d _ _ _ (by decide)]
  · rw [kommentar_check_generate users table d _ _ _ (by decide)]

/-- C6 (amended): on the engine's own output the validator completes and its
logged outcomes are exactly these: tolerance checks (pass iff the absolute
difference is at most 0.02) for the automation and workplace buckets against
expectations recomputed from the license data, and likewise for the
meeting-room bucket when its row exists; additionally a meeting-room check
comparing `round(total * unit_price, 2)` against the rounded row net for
exact equality (which can report a mismatch even inside the tolerance); the
whole-invoice tolerance check runs only when an invoice total was extracted
and is otherwise skipped; the copilot/ms365-EEA/premium per-line checks never
find a row (no row carries a `Kommentar`), and the per-person bucket receives
no expected/actual comparison at all — only its summed row total is logged. -/
theorem C6_validator_trace (users : List User) (table : List ProjectRow) (d : LicenseDict) :
    validate_accounting_rows (generate_accounting_rows users table d) d users =
      .ok ({ power_bi_total := ((power_bi_rows users d).map (·.Netto)).sum,
             automation_total := round2 (spec_automation_net users d),
             ms365_total := round2 (spec_ms365_net d),
             teams_sec4 := (getLic d .teams_rooms).map (fun i =>
               some (round2 (i.total * i.unit_price) == round2 (round2 i.total))),
             total_check := (getInvoiceTotal d).map (fun it =>
               decide (|((generate_accounting_rows users table d).map (·.Netto)).sum - it|
                 ≤ 0.02)),
             automation_ok :=
               decide (|round2 (spec_automation_net users d) - spec_automation_net users d|
                 ≤ 0.02),
             ms365_ok := decide (|round2 (spec_ms365_net d) - spec_ms365_net d| ≤ 0.02),
             teams_sec6 := (getLic d .teams_rooms).map (fun i =>
               decide (|round2 i.total - i.total| ≤ 0.02)),
             copilot_check := (getLic d .copilot).map (fun _ => none),
             ms365eea_check := (getLic d .ms365_eea).map (fun _ => none),
             prem_check := (getLic d .power_automate_prem).map (fun _ => none) }, ()) :=
  validator_trace_on_generate users table d

/-- Counterexample to C6 as stated: with a `teams_rooms` line of total `100`
and unit price `2`, the meeting-room row's net equals the recomputed expected
value exactly (the section-6 tolerance check passes), yet the validator's
section-4 meeting-room check reports a mismatch, because it compares the row
net against `round(total * unit_price, 2) = 200` for exact equality — so
"pass exactly when within 0.02" is false for this bucket. -/
theorem C6_counterexample :
    (validate_accounting_rows (generate_accounting_rows [] [] d_teams) d_teams []).map
        (fun p => (p.1.teams_sec4, p.1.teams_sec6)) =
      .ok (some (some false), some true) := by
  rw [validator_trace_on_generate]
  have hti : getLic d_teams .teams_rooms =
      some { quantity := 50, unit_price := 2, total := 100 } := rfl
  rw [Except.map, hti]
  simp only [Option.map]
  have e1 : round2 ((100 : ℚ) * 2) = 200 := by norm_num [round2, roundHalfEven]
  have e2 : round2 (100 : ℚ) = 100 := by norm_num [round2, roundHalfEven]
  show Except.ok (ε := VErr)
      (some (some (round2 ((100 : ℚ) * 2) == round2 (round2 (100 : ℚ)))),
        some (decide (|round2 (100 : ℚ) - 100| ≤ 0.02))) = _
  rw [e2, e1, e2]
  have b1 : ((200 : ℚ) == 100) = false := by
    rw [beq_eq_false_iff_ne]
    norm_num
  have b2 : decide (|(100 : ℚ) - 100| ≤ 0.02) = true := by
    rw [decide_eq_true_eq]
    norm_num
  rw [b1, b2]

theorem validate_empty_run_eq :
    validate_accounting_rows (generate_accounting_rows [] [] []) [] [] =
      .ok (trace_empty_run, ()) := by
  rw [validator_trace_on_generate]
  rfl

theorem validate_bad_auto_eq :
    validate_accounting_rows rows_bad_auto [] [] = .ok (trace_bad_auto, ()) := rfl

theorem spec_automation_net_empty : spec_automation_net [] [] = 0 := by
  simp [spec_automation_net, getLic]

theorem expected_automation_net_empty : expected_automation_net [] [] = 0 := by
  rw [expected_automation_net_eq_spec]
  exact spec_automation_net_empty

/-- C7 (amended): the validator communicates its per-bucket and overall
comparison outcomes only through log lines; its body ends without a `return`,
so the value delivered to the caller is `None` — identical across all runs
that complete, whatever the comparison outcomes were.  No structured report
object reaches the caller. -/
theorem C7_caller_gets_nothing (rows rows' : List AccountingRow) (d d' : LicenseDict)
    (users users' : List User) (res res' : ValidationTrace × Unit)
    (h : validate_accounting_rows rows d users = .ok res)
    (h' : validate_accounting_rows rows' d' users' = .ok res') :
    res.2 = res'.2 := rfl

/-- Witness for `C7_caller_gets_nothing`: two completed runs. -/
theorem C7_witness :
    validate_accounting_rows (generate_accounting_rows [] [] []) [] [] =
        .ok (trace_empty_run, ()) ∧
      validate_accounting_rows rows_bad_auto [] [] = .ok (trace_bad_auto, ()) ∧
      (trace_empty_run, ()).2 = (trace_bad_auto, ()).2 :=
  ⟨validate_empty_run_eq, validate_bad_auto_eq,
    C7_caller_gets_nothing _ _ _ _ _ _ _ _ validate_empty_run_eq validate_bad_auto_eq⟩

/-- Counterexample to C7 as stated: one run's automation check passes and the
other's fails, yet the two runs' caller-visible results are equal — the
validator's output to its caller carries no within-tolerance flags (it is
`None`; the outcomes exist only in the log). -/
theorem C7_counterexample :
    (validate_accounting_rows (generate_accounting_rows [] [] []) [] []).map
        (fun p => p.1.automation_ok) = .ok true ∧
      (validate_accounting_rows rows_bad_auto [] []).map
        (fun p => p.1.automation_ok) = .ok false ∧
      (validate_accounting_rows (generate_accounting_rows [] [] []) [] []).map
          (fun p => p.2) =
        (validate_accounting_rows rows_bad_auto [] []).map (fun p => p.2) := by
  refine ⟨?_, ?_, ?_⟩
  · rw [validate_empty_run_eq]
    show Except.ok (ε := VErr) trace_empty_run.automation_ok = .ok true
    rw [show trace_empty_run.automation_ok =
      decide (|round2 (spec_automation_net [] []) - spec_automation_net [] []| ≤ 0.02) from rfl]
    rw [spec_automation_net_empty]
    norm_num [round2, roundHalfEven]
  · rw [validate_bad_auto_eq]
    show Except.ok (ε := VErr) trace_bad_auto.automation_ok = .ok false
    rw [show trace_bad_auto.automation_ok =
      decide (|(100 : ℚ) - expected_automation_net [] []| ≤ 0.02) from rfl]
    rw [expected_automation_net_empty]
    norm_num
  · rw [validate_empty_run_eq, validate_bad_auto_eq]
    rfl

/-- C8 (amended): the resolver is total and never fails.  It normalizes the
identifier by removing every occurrence of the substring `P.` when the
identifier starts with it (Python `replace`, not a pure prefix strip — the
claim's "strips the vendor prefix" reading breaks on identifiers containing
`P.` twice), re-prefixes `P.` onto the returned account/project code, falls
back to a built-in default record for the three known identifiers when the
table lacks the row, and otherwise to the generic record carrying the
`Okänd mottagare` marker and activity code `738`. -/
theorem C8_settings_resolution (table : List ProjectRow) (project_id : String) :
    (∀ p, table.find? (fun r => r.ProjektID == stripP project_id) = some p →
      get_project_settings table project_id =
        { KonProj := "P." ++ p.ProjektID, Aktivitet := p.Aktivitet,
          ProjKat := p.ProjKat, Mottagare := p.Mottagare }) ∧
    (table.find? (fun r => r.ProjektID == stripP project_id) = none →
      (stripP project_id = "20257601" →
        get_project_settings table project_id =
          { KonProj := "P.20257601", Aktivitet := "050", ProjKat := "5420",
            Mottagare := "Digital Utveckling och integration" }) ∧
      (stripP project_id = "20257407" →
        get_project_settings table project_id =
          { KonProj := "P.20257407", Aktivitet := "738", ProjKat := "5420",
            Mottagare := "Digital Arbetsplats" }) ∧
      (stripP project_id = "20257403" →
        get_project_settings table project_id =
          { KonProj := "P.20257403", Aktivitet := "738", ProjKat := "5420",
            Mottagare := "Digital Arbetsplats" }) ∧
      (stripP project_id ∉ (["20257601", "20257407", "20257403"] : List String) →
        get_project_settings table project_id =
          { KonProj := "P." ++ stripP project_id, Aktivitet := "738", ProjKat := "5420",
            Mottagare := "Okänd mottagare" })) := by
  constructor
  · intro p hp
    unfold get_project_settings
    rw [hp]
  · intro hn
    refine ⟨?_, ?_, ?_, ?_⟩
    · intro h1
      unfold get_project_settings
      rw [hn, if_pos (by simp [h1])]
    · intro h2
      unfold get_project_settings
      have hne1 : (stripP project_id == "20257601") = false := by simp [h2]
      rw [hn, if_neg (by simp [hne1]), if_pos (by simp [h2])]
    · intro h3
      unfold get_project_settings
      have hne1 : (stripP project_id == "20257601") = false := by simp [h3]
      have hne2 : (stripP project_id == "20257407") = false := by simp [h3]
      rw [hn, if_neg (by simp [hne1]), if_neg (by simp [hne2]), if_pos (by simp [h3])]
    · intro h4
      unfold get_project_settings
      simp only [List.mem_cons, List.not_mem_nil, or_false, not_or] at h4
      obtain ⟨hne1, hne2, hne3⟩ := h4
      rw [hn, if_neg (by simp [hne1]), if_neg (by simp [hne2]), if_neg (by simp [hne3])]

/-- Witness for `C8_settings_resolution`: an identifier unknown to the
empty table and to the defaults resolves to the generic fallback. -/
theorem C8_witness :
    ([] : List ProjectRow).find? (fun r => r.ProjektID == stripP "P.99") = none ∧
      stripP "P.99" ∉ (["20257601", "20257407", "20257403"] : List String) ∧
      get_project_settings [] "P.99" =
        { KonProj := "P.99", Aktivitet := "738", ProjKat := "5420",
          Mottagare := "Okänd mottagare" } := by
  refine ⟨rfl, by decide, ?_⟩
  have h := ((C8_settings_resolution [] "P.99").2 rfl).2.2.2 (by decide)
  rw [h]
  decide

/-- Counterexample to C8 as stated: on `P.P.20257601` the claimed behavior —
strip the leading `P.`, find `P.20257601` unknown even to the defaults,
return the unknown-recipient fallback — disagrees with the code, which
removes both occurrences of `P.` and therefore returns the automation
bucket's built-in default record instead. -/
theorem C8_counterexample :
    stripPrefixSpec "P.P.20257601" = "P.20257601" ∧
      stripPrefixSpec "P.P.20257601" ∉ (["20257601", "20257407", "20257403"] : List String) ∧
      get_project_settings [] "P.P.20257601" =
        { KonProj := "P.20257601", Aktivitet := "050", ProjKat := "5420",
          Mottagare := "Digital Utveckling och integration" } ∧
      (get_project_settings [] "P.P.20257601").Mottagare ≠ "Okänd mottagare" := by
  refine ⟨by decide, by decide, by decide, by decide⟩

theorem breakAt_eq_nil (p : Char → Bool) (l : List Char) (h : ∀ x ∈ l, p x = false) :
    breakAt p l = (l, []) := by
  induction l with
  | nil => rfl
  | cons x xs ih =>
    have hx : p x = false := h x (List.mem_cons_self x xs)
    simp [breakAt, hx, ih (fun y hy => h y (List.mem_cons_of_mem x hy))]

theorem breakAt_append_of (p : Char → Bool) (a : List Char) (c : Char) (b : List Char)
    (ha : ∀ x ∈ a, p x = false) (hc : p c = true) :
    breakAt p (a ++ c :: b) = (a, c :: b) := by
  induction a with
  | nil => simp [breakAt, hc]
  | cons x xs ih =>
    have hx : p x = false := ha x (List.mem_cons_self x xs)
    simp [breakAt, hx, ih (fun y hy => ha y (List.mem_cons_of_mem x hy))]

theorem breakAt_eq_cons (p : Char → Bool) (l ip fp : List Char) (c : Char)
    (h : breakAt p l = (ip, c :: fp)) :
    l = ip ++ c :: fp ∧ (∀ x ∈ ip, p x = false) ∧ p c = true := by
  induction l generalizing ip with
  | nil => simp [breakAt] at h
  | cons x xs ih =>
    by_cases hx : p x = true
    · have hred : breakAt p (x :: xs) = ([], x :: xs) := by simp [breakAt, hx]
      rw [hred] at h
      injection h with h1 h2
      injection h2 with h2a h2b
      subst h1; subst h2a; subst h2b
      exact ⟨rfl, by simp, hx⟩
    · have hx' : p x = false := by simpa using hx
      simp only [breakAt, hx', Bool.false_eq_true, if_false] at h
      rcases hb : breakAt p xs with ⟨a', b'⟩
      rw [hb] at h
      cases ip with
      | nil => simp at h
      | cons y ys =>
        simp at h
        obtain ⟨⟨hy, hys⟩, hb'⟩ := h
        subst hy
        obtain ⟨hl, hall, hc⟩ := ih ys (by rw [hb, hys, hb'])
        refine ⟨by rw [List.cons_append, hl], ?_, hc⟩
        intro z hz
        rcases List.mem_cons.mp hz with rfl | hz'
        · exact hx'
        · exact hall z hz'

theorem splitSign_cons (c : Char) (r : List Char) (h1 : c ≠ '-') (h2 : c ≠ '+') :
    splitSign (c :: r) = (false, c :: r) := by
  simp only [splitSign]
  rw [if_neg h1, if_neg h2]

theorem isDigit_ne (c : Char) (h : c.isDigit = true) :
    c ≠ '-' ∧ c ≠ '+' ∧ c ≠ 'e' ∧ c ≠ 'E' ∧ c ≠ '.' ∧ c ≠ ',' ∧ c ≠ ' ' := by
  refine ⟨?_, ?_, ?_, ?_, ?_, ?_, ?_⟩ <;> rintro rfl <;> exact absurd h (by decide)

theorem pyFloat_digits_dot_digits (ip fp : List Char)
    (hip : ∀ x ∈ ip, x.isDigit = true) (hfp : ∀ x ∈ fp, x.isDigit = true)
    (hne : fp ≠ []) :
    pyFloat (ip ++ '.' :: fp) =
      some ((digitsVal ip : ℚ) + (digitsVal fp : ℚ) / 10 ^ fp.length) := by
  have hsign : splitSign (ip ++ '.' :: fp) = (false, ip ++ '.' :: fp) := by
    cases ip with
    | nil =>
      simp only [List.nil_append]
      exact splitSign_cons '.' fp (by decide) (by decide)
    | cons c cs =>
      have hd := isDigit_ne c (hip c (List.mem_cons_self c cs))
      exact splitSign_cons c _ hd.1 hd.2.1
  have hbreakE : breakAt (fun c => c = 'e' || c = 'E') (ip ++ '.' :: fp) =
      (ip ++ '.' :: fp, []) := by
    apply breakAt_eq_nil
    intro x hx
    rcases List.mem_append.mp hx with h1 | h2
    · have hd := isDigit_ne x (hip x h1)
      simp [hd.2.2.1, hd.2.2.2.1]
    · rcases List.mem_cons.mp h2 with rfl | h3
      · decide
      · have hd := isDigit_ne x (hfp x h3)
        simp [hd.2.2.1, hd.2.2.2.1]
  have hbreakDot : breakAt (fun c => c = '.') (ip ++ '.' :: fp) = (ip, '.' :: fp) := by
    apply breakAt_append_of
    · intro x hx
      have hd := isDigit_ne x (hip x hx)
      simp [hd.2.2.2.2.1]
    · decide
  have hipAll : ip.all (·.isDigit) = true := List.all_eq_true.mpr hip
  have hfpAll : fp.all (·.isDigit) = true := List.all_eq_true.mpr hfp
  have hfpEmp : fp.isEmpty = false := by
    cases fp with
    | nil => exact absurd rfl hne
    | cons a as => rfl
  unfold pyFloat
  rw [hsign]
  dsimp only
  rw [hbreakE]
  dsimp only
  rw [hbreakDot]
  dsimp only
  rw [if_pos (by simp [hipAll, hfpAll, hfpEmp])]
  simp

theorem parse_number_vendor_eq (s : String) (h : vendorShape s = true) :
    parse_number s = some (vendorValue s) := by
  unfold vendorShape at h
  rcases hbrk : breakAt (fun c => c = ',') s.data with ⟨ip, rest⟩
  rw [hbrk] at h
  cases rest with
  | nil => simp at h
  | cons c fp =>
    dsimp only at h
    obtain ⟨hl, hipf, hc⟩ := breakAt_eq_cons _ _ _ _ _ hbrk
    have hcomma : c = ',' := of_decide_eq_true hc
    subst hcomma
    simp only [Bool.and_eq_true] at h
    obtain ⟨⟨⟨hany, hall⟩, hfpne⟩, hfpdig⟩ := h
    have hfp : ∀ x ∈ fp, x.isDigit = true := List.all_eq_true.mp hfpdig
    have hfpne' : fp ≠ [] := by
      cases fp with
      | nil => simp at hfpne
      | cons a as => exact List.cons_ne_nil a as
    have hip' : ∀ x ∈ ip, (x.isDigit || decide (x = ' ')) = true := List.all_eq_true.mp hall
    have hipf_dig : ∀ x ∈ ip.filter (fun c => c != ' '), x.isDigit = true := by
      intro x hx
      obtain ⟨hxm, hxs⟩ := List.mem_filter.mp hx
      have hcase : x.isDigit = true ∨ x = ' ' := by simpa using hip' x hxm
      rcases hcase with hd | hsp
      · exact hd
      · exact absurd hsp (by simpa using hxs)
    have hfil2 : (',' :: fp).filter (fun c => c != ' ') = ',' :: fp := by
      rw [List.filter_cons_of_pos (by decide)]
      congr 1
      exact List.filter_eq_self.mpr (fun x hx => by
        have hd := isDigit_ne x (hfp x hx)
        simp [hd.2.2.2.2.2.2])
    have hmap1 : (ip.filter (fun c => c != ' ')).map (fun c => if c = ',' then '.' else c) =
        ip.filter (fun c => c != ' ') := by
      have hcongr : (ip.filter (fun c => c != ' ')).map (fun c => if c = ',' then '.' else c) =
          (ip.filter (fun c => c != ' ')).map (fun c => c) :=
        List.map_congr_left (fun x hx => by
          have hd := isDigit_ne x (hipf_dig x hx)
          show (if x = ',' then '.' else x) = x
          rw [if_neg hd.2.2.2.2.2.1])
      rw [hcongr, List.map_id']
    have hmap2 : (',' :: fp).map (fun c => if c = ',' then '.' else c) = '.' :: fp := by
      simp only [List.map_cons, if_pos rfl]
      congr 1
      have hcongr : fp.map (fun c => if c = ',' then '.' else c) = fp.map (fun c => c) :=
        List.map_congr_left (fun x hx => by
          have hd := isDigit_ne x (hfp x hx)
          show (if x = ',' then '.' else x) = x
          rw [if_neg hd.2.2.2.2.2.1])
      rw [hcongr, List.map_id']
    unfold parse_number
    rw [hl, List.filter_append, hfil2, List.map_append, hmap1, hmap2,
      pyFloat_digits_dot_digits _ _ hipf_dig hfp hfpne']
    unfold vendorValue
    rw [hbrk]

/-- C9 (amended): on every token of the vendor's numeric format the
normalization returns exactly the token's value with spaces removed and the
comma read as a decimal point.  (The claim's second half is false: the code
performs no shape check — it only space-strips, comma-replaces and calls
`float`, so tokens outside the vendor shape that happen to be valid float
literals still succeed; see the counterexample.) -/
theorem C9_vendor_normalization (s : String) (h : vendorShape s = true) :
    parse_number s = some (vendorValue s) :=
  parse_number_vendor_eq s h

/-- Witness for `C9_vendor_normalization`: the thousands-separated token
`1 234,56` parses to exactly `1234.56`. -/
theorem C9_witness :
    vendorShape "1 234,56" = true ∧ parse_number "1 234,56" = some ((123456 : ℚ) / 100) := by
  refine ⟨by decide, ?_⟩
  rw [C9_vendor_normalization "1 234,56" (by decide)]
  show some ((digitsVal ['1', '2', '3', '4'] : ℚ)
    + (digitsVal ['5', '6'] : ℚ) / 10 ^ (['5', '6'] : List Char).length) = _
  rw [show digitsVal ['1', '2', '3', '4'] = 1234 from by decide,
    show digitsVal ['5', '6'] = 56 from by decide]
  norm_num

/-- Counterexample to C9 as stated: `12.5` does not match the vendor's
numeric format (no comma decimal separator), yet the normalization succeeds
on it and returns `12.5`, because the code never validates the token's
shape. -/
theorem C9_counterexample :
    vendorShape "12.5" = false ∧ parse_number "12.5" = some ((25 : ℚ) / 2) := by
  refine ⟨by decide, ?_⟩
  show pyFloat (['1', '2'] ++ '.' :: ['5']) = _
  rw [pyFloat_digits_dot_digits ['1', '2'] ['5'] (by decide) (by decide) (by simp)]
  rw [show digitsVal ['1', '2'] = 12 from by decide,
    show digitsVal ['5'] = 5 from by decide]
  norm_num

theorem collectEntries_total (nm om : LicenseType → List MatchTriple)
    (hall : ∀ t, (parseAll (nm t ++ om t)).isSome = true) :
    ∀ ts : List LicenseType, ∃ es, collectEntries nm om ts = some es := by
  intro ts
  induction ts with
  | nil => exact ⟨[], rfl⟩
  | cons t ts ih =>
    obtain ⟨es, hes⟩ := ih
    unfold collectEntries
    by_cases he : (nm t ++ om t).isEmpty = true
    · rw [if_pos he]
      exact ⟨es, hes⟩
    · rw [if_neg he]
      obtain ⟨vals, hv⟩ := Option.isSome_iff_exists.mp (hall t)
      rw [hv]
      dsimp only
      rw [hes]
      exact ⟨_, rfl⟩

theorem getLic_append_invoiceTotal (es : LicenseDict) (v : Option ℚ) (t : LicenseType) :
    getLic (es ++ [.invoiceTotal v]) t = getLic es t := by
  unfold getLic
  induction es with
  | nil => rfl
  | cons e es ih =>
    rw [List.cons_append]
    cases he : DEntry.licOf t e with
    | some x => simp [List.findSome?_cons, he]
    | none =>
      simp only [List.findSome?_cons, he]
      exact ih

theorem collectEntries_lookup (nm om : LicenseType → List MatchTriple)
    (hall : ∀ t', (parseAll (nm t' ++ om t')).isSome = true)
    (ts : List LicenseType) (t : LicenseType) (ht : t ∈ ts)
    (vals : List (ℚ × ℚ × ℚ)) (hv : parseAll (nm t ++ om t) = some vals)
    (hne : nm t ++ om t ≠ []) :
    ∃ es, collectEntries nm om ts = some es ∧
      es.findSome? (DEntry.licOf t) = some (aggregate_matches vals) := by
  induction ts with
  | nil => cases ht
  | cons t' ts ih =>
    by_cases heq : t' = t
    · subst heq
      unfold collectEntries
      have hemp : (nm t' ++ om t').isEmpty = false := by
        cases hcase : nm t' ++ om t' with
        | nil => exact absurd hcase hne
        | cons a as => rfl
      rw [if_neg (by simp [hemp])]
      rw [hv]
      dsimp only
      obtain ⟨es', hes'⟩ := collectEntries_total nm om hall ts
      rw [hes']
      refine ⟨_, rfl, ?_⟩
      simp [List.findSome?_cons, DEntry.licOf]
    · have ht' : t ∈ ts := by
        rcases List.mem_cons.mp ht with rfl | hmem
        · exact absurd rfl heq
        · exact hmem
      obtain ⟨es, hes, hlook⟩ := ih ht'
      unfold collectEntries
      by_cases hemp : (nm t' ++ om t').isEmpty = true
      · rw [if_pos hemp]
        exact ⟨es, hes, hlook⟩
      · rw [if_neg hemp]
        obtain ⟨vals', hv'⟩ := Option.isSome_iff_exists.mp (hall t')
        rw [hv']
        dsimp only
        rw [hes]
        refine ⟨_, rfl, ?_⟩
        have hbeq : (t' == t) = false := by
          simpa using heq
        simp [List.findSome?_cons, DEntry.licOf, hbeq, hlook]

theorem aggregate_matches_eq (vals : List (ℚ × ℚ × ℚ)) (hne : vals ≠ []) :
    aggregate_matches vals =
      { quantity := (vals.map (·.1)).sum,
        unit_price := (vals.map (·.2.1)).sum / vals.length,
        total := (vals.map (·.2.2)).sum } := by
  unfold aggregate_matches
  have hemp : (vals.map (·.2.1)).isEmpty = false := by
    cases vals with
    | nil => exact absurd rfl hne
    | cons v vs => rfl
  have hup : (vals.map (·.2.1)).foldl (· + ·) 0 = (vals.map (·.2.1)).sum := by
    simpa using foldl_add_eq_sum (fun x : ℚ => x) (vals.map (·.2.1)) 0
  simp only [LicenseLineItem.mk.injEq]
  refine ⟨?_, ?_, ?_⟩
  · rw [foldl_add_eq_sum (·.1) vals 0, zero_add]
  · rw [if_neg (by simp [hemp]), hup, List.length_map]
  · rw [foldl_add_eq_sum (·.2.2) vals 0, zero_add]

/-- C2: for a license type with at least one matched billing line (collecting
the current-layout and legacy-layout matches), the merged aggregate carries
the summed quantities, the summed line totals, and the arithmetic mean of the
matched unit prices (not total divided by quantity). -/
theorem C2_merged_aggregate (nm om : LicenseType → List MatchTriple) (tok : Option String)
    (hall : ∀ t', (parseAll (nm t' ++ om t')).isSome = true)
    (htok : ∀ s, tok = some s → (parse_number s).isSome = true)
    (t : LicenseType) (vals : List (ℚ × ℚ × ℚ))
    (hv : parseAll (nm t ++ om t) = some vals)
    (hne : nm t ++ om t ≠ []) :
    ∃ d, parse_license_info nm om tok = .ok d ∧
      getLic d t = some { quantity := (vals.map (·.1)).sum,
                          unit_price := (vals.map (·.2.1)).sum / vals.length,
                          total := (vals.map (·.2.2)).sum } := by
  have ht : t ∈ typeOrder := by cases t <;> simp [typeOrder]
  obtain ⟨es, hes, hlook⟩ := collectEntries_lookup nm om hall typeOrder t ht vals hv hne
  have hvals_ne : vals ≠ [] := by
    intro hv0
    subst hv0
    cases hcase : nm t ++ om t with
    | nil => exact hne hcase
    | cons a as =>
      rw [hcase] at hv
      cases hpa : parseTriple a <;> cases hps : parseAll as <;> simp [parseAll, hpa, hps] at hv
  unfold parse_license_info
  rw [hes]
  cases tok with
  | none =>
    dsimp only
    refine ⟨es ++ [.invoiceTotal none], ?_, ?_⟩
    · rw [if_neg (by simp)]
    · rw [getLic_append_invoiceTotal]
      show es.findSome? (DEntry.licOf t) = _
      rw [hlook, aggregate_matches_eq vals hvals_ne]
  | some s =>
    obtain ⟨v, hvtok⟩ := Option.isSome_iff_exists.mp (htok s rfl)
    dsimp only
    rw [hvtok]
    dsimp only
    refine ⟨es ++ [.invoiceTotal (some v)], ?_, ?_⟩
    · rw [if_neg (by simp)]
    · rw [getLic_append_invoiceTotal]
      show es.findSome? (DEntry.licOf t) = _
      rw [hlook, aggregate_matches_eq vals hvals_ne]

/-- Witness for `C2_merged_aggregate`: one current-layout and one
legacy-layout `power_bi` line merge into quantity `3`, total `200`, and mean
unit price `75`. -/
theorem C2_witness :
    (∀ t', (parseAll (nm_w t' ++ om_w t')).isSome = true) ∧
      getLic ((parse_license_info nm_w om_w none).toOption.getD []) .power_bi =
        some { quantity := 3, unit_price := 75, total := 200 } := by
  have hall : ∀ t', (parseAll (nm_w t' ++ om_w t')).isSome = true := by
    intro t'
    cases t' <;> rfl
  refine ⟨hall, ?_⟩
  have e20 : parse_number "2,0" = some 2 := by
    rw [parse_number_vendor_eq "2,0" (by decide)]
    show some ((digitsVal ['2'] : ℚ)
      + (digitsVal ['0'] : ℚ) / 10 ^ (['0'] : List Char).length) = _
    rw [show digitsVal ['2'] = 2 from by decide, show digitsVal ['0'] = 0 from by decide]
    norm_num
  have e100 : parse_number "100,00" = some 100 := by
    rw [parse_number_vendor_eq "100,00" (by decide)]
    show some ((digitsVal ['1', '0', '0'] : ℚ)
      + (digitsVal ['0', '0'] : ℚ) / 10 ^ (['0', '0'] : List Char).length) = _
    rw [show digitsVal ['1', '0', '0'] = 100 from by decide,
      show digitsVal ['0', '0'] = 0 from by decide]
    norm_num
  have e150 : parse_number "150,00" = some 150 := by
    rw [parse_number_vendor_eq "150,00" (by decide)]
    show some ((digitsVal ['1', '5', '0'] : ℚ)
      + (digitsVal ['0', '0'] : ℚ) / 10 ^ (['0', '0'] : List Char).length) = _
    rw [show digitsVal ['1', '5', '0'] = 150 from by decide,
      show digitsVal ['0', '0'] = 0 from by decide]
    norm_num
  have e10 : parse_number "1,0" = some 1 := by
    rw [parse_number_vendor_eq "1,0" (by decide)]
    show some ((digitsVal ['1'] : ℚ)
      + (digitsVal ['0'] : ℚ) / 10 ^ (['0'] : List Char).length) = _
    rw [show digitsVal ['1'] = 1 from by decide, show digitsVal ['0'] = 0 from by decide]
    norm_num
  have e50 : parse_number "50,00" = some 50 := by
    rw [parse_number_vendor_eq "50,00" (by decide)]
    show some ((digitsVal ['5', '0'] : ℚ)
      + (digitsVal ['0', '0'] : ℚ) / 10 ^ (['0', '0'] : List Char).length) = _
    rw [show digitsVal ['5', '0'] = 50 from by decide,
      show digitsVal ['0', '0'] = 0 from by decide]
    norm_num
  have p1 : parseTriple ("2,0", "100,00", "150,00") = some (2, 100, 150) := by
    unfold parseTriple
    rw [show (("2,0", "100,00", "150,00") : MatchTriple).1 = "2,0" from rfl]
    rw [e20, e100, e150]
  have p2 : parseTriple ("1,0", "50,00", "50,00") = some (1, 50, 50) := by
    unfold parseTriple
    rw [e10, e50]
  have hv : parseAll (nm_w .power_bi ++ om_w .power_bi) =
      some [((2 : ℚ), (100 : ℚ), (150 : ℚ)), ((1 : ℚ), (50 : ℚ), (50 : ℚ))] := by
    show parseAll ([("2,0", "100,00", "150,00"), ("1,0", "50,00", "50,00")] :
      List MatchTriple) = _
    simp [parseAll, p1, p2]
  obtain ⟨d, h1, h2⟩ := C2_merged_aggregate nm_w om_w none hall (fun s hs => nomatch hs)
    .power_bi [((2 : ℚ), (100 : ℚ), (150 : ℚ)), ((1 : ℚ), (50 : ℚ), (50 : ℚ))] hv (by decide)
  rw [h1]
  show getLic d .power_bi = _
  rw [h2]
  simp only [List.map_cons, List.map_nil, LicenseLineItem.mk.injEq, Option.some.injEq]
  norm_num
